import Mathlib

/-!
Shallow embedding of `enviroplus_exporter.py`: the metric registry, the
sensor read routines with their fault-recovery policy, the AQI band
lookup, the snapshot collector, and the per-sink publisher loops.
Numeric values are modelled as exact rationals; Python exceptions are
modelled with `Except`; observable side effects (logging, bus probing,
sleeping, histogram observation, network posts, display drawing) are
modelled as an explicit action trace.
-/

namespace Enviro

/-- RGB color triple. -/
abbrev Color := Nat × Nat × Nat

/-- An IOError raised by a bus-attached sensor read. -/
inductive IOErr where
  | ioError
deriving DecidableEq, Repr

/-- Errors the PMS5003 particulate read can raise: the distinguished
read-timeout, or a plain IOError. -/
inductive PmsErr where
  | readTimeout
  | ioError
deriving DecidableEq, Repr

/-- Observable side effects of the exporter, recorded as a trace. -/
inductive Action where
  | readSensor (name : String)
  | logError (msg : String)
  | logWarning (msg : String)
  | probeBus
  | sleep (seconds : ℚ)
  | observe (hist : String) (v : ℚ)
  | indexInput (pm25 pm10 : ℚ)
  | sendInflux (fields : List String)
  | postLuftdaten (pin : String)
  | clearDisplay
  | drawText (msg : String) (color : Option Color)
deriving DecidableEq, Repr

/-- Model of `reset_i2c()`: probe the bus with i2cdetect, then sleep 2 seconds. -/
def reset_i2c : List Action := [Action.probeBus, Action.sleep 2]

/-- The `AQI_CATEGORIES` dict: insertion-ordered (limit-pair, category)
entries, scanned in order by `get_aqi_category`. -/
def AQI_CATEGORIES : List ((ℚ × ℚ) × String) :=
  [((-1, 50), "Good"),
   ((50, 100), "Moderate"),
   ((100, 150), "Unhealthy for Sensitive Groups"),
   ((150, 200), "Unhealthy"),
   ((200, 300), "Very Unhealthy"),
   ((300, 500), "Hazardous")]

/-- The `AQI_COLORS` dict: insertion-ordered (limit-pair, color) entries. -/
def AQI_COLORS : List ((ℚ × ℚ) × Color) :=
  [((-1, 50), (0, 128, 0)),
   ((50, 100), (255, 255, 0)),
   ((100, 150), (255, 165, 0)),
   ((150, 200), (255, 0, 0)),
   ((200, 300), (128, 0, 128)),
   ((300, 500), (128, 0, 0))]

/-- The loop condition `aqi_value > limits[0] and aqi_value <= limits[1]`. -/
def inBand (v lo hi : ℚ) : Bool := decide (lo < v ∧ v ≤ hi)

/-- Model of `get_aqi_category`: linear scan of `AQI_CATEGORIES`, first matching
band wins; falling through every band returns Python `None`. -/
def get_aqi_category (v : ℚ) : Option String :=
  (AQI_CATEGORIES.find? fun e => inBand v e.1.1 e.1.2).map Prod.snd

/-- Model of `get_aqi_color`: linear scan of `AQI_COLORS`, first matching band
wins; falling through every band returns Python `None`. -/
def get_aqi_color (v : ℚ) : Option Color :=
  (AQI_COLORS.find? fun e => inBand v e.1.1 e.1.2).map Prod.snd

/-- The Prometheus gauges of the exporter. Each gauge defaults to 0
before its first successful `set`. -/
structure Registry where
  temperature : ℚ := 0
  pressure : ℚ := 0
  humidity : ℚ := 0
  oxidising : ℚ := 0
  reducing : ℚ := 0
  nh3 : ℚ := 0
  lux : ℚ := 0
  proximity : ℚ := 0
  pm1 : ℚ := 0
  pm25 : ℚ := 0
  pm10 : ℚ := 0
  aqi : ℚ := 0
deriving DecidableEq, Repr

/-- The registry at process start: every gauge at its default 0. -/
def Registry.init : Registry := {}

/-- The three resistances returned by one `gas.read_all()`. -/
structure GasData where
  oxidising : ℚ
  reducing : ℚ
  nh3 : ℚ
deriving DecidableEq, Repr

/-- One `pms5003.read()`: the three `pm_ug_per_m3` concentrations. -/
structure PmsData where
  pm1 : ℚ
  pm25 : ℚ
  pm10 : ℚ
deriving DecidableEq, Repr

/-- The compensated temperature of one `get_temperature` call when the
factor is truthy: the window `[c1]*5` is slid by one (`c2` appended,
oldest copy of `c1` dropped), averaged, and the compensation applied. -/
def compensate (factor raw c1 c2 : ℚ) : ℚ :=
  let cpu_temps := List.replicate 5 c1
  let cpu_temps := cpu_temps.drop 1 ++ [c2]
  let avg_cpu_temp := cpu_temps.sum / (cpu_temps.length : ℚ)
  raw - ((avg_cpu_temp - raw) / factor)

/-- Model of `get_temperature(factor)`: the BME280 read is NOT wrapped in
`try/except`, so an IOError propagates to the caller. `factor` is an
optional float; Python `if factor:` is false for `None` and for 0.
When truthy, two CPU-temperature readings `c1, c2` are taken, a local
window `[c1]*5` is slid with `c2` and averaged, and the compensated
value is stored; otherwise the raw value is stored. -/
def get_temperature (factor : Option ℚ) (bmeRead : Except IOErr ℚ)
    (c1 c2 : ℚ) (r : Registry) : Except IOErr (Registry × List Action) :=
  match bmeRead with
  | .error e => .error e
  | .ok raw_temp =>
    match factor with
    | none =>
        .ok ({r with temperature := raw_temp}, [Action.readSensor "temperature"])
    | some f =>
        if f = 0 then
          .ok ({r with temperature := raw_temp}, [Action.readSensor "temperature"])
        else
          .ok ({r with temperature := compensate f raw_temp c1 c2},
               [Action.readSensor "temperature"])

/-- Model of `get_pressure()`: read wrapped in `try/except IOError`, which logs
an error and runs `reset_i2c()`. -/
def get_pressure (bmeRead : Except IOErr ℚ) (r : Registry) :
    Registry × List Action :=
  match bmeRead with
  | .ok p => ({r with pressure := p}, [Action.readSensor "pressure"])
  | .error _ =>
      (r, [Action.readSensor "pressure",
           Action.logError "Could not get pressure readings. Resetting i2c."]
          ++ reset_i2c)

/-- Model of `get_humidity()`: read wrapped in `try/except IOError`, which logs
an error and runs `reset_i2c()`. -/
def get_humidity (bmeRead : Except IOErr ℚ) (r : Registry) :
    Registry × List Action :=
  match bmeRead with
  | .ok h => ({r with humidity := h}, [Action.readSensor "humidity"])
  | .error _ =>
      (r, [Action.readSensor "humidity",
           Action.logError "Could not get humidity readings. Resetting i2c."]
          ++ reset_i2c)

/-- Model of `get_gas()`: one `gas.read_all()` wrapped in `try/except IOError`;
on success the three gauges are set and the three histograms observed,
on IOError it logs and runs `reset_i2c()`. -/
def get_gas (gasRead : Except IOErr GasData) (r : Registry) :
    Registry × List Action :=
  match gasRead with
  | .ok g =>
      ({r with oxidising := g.oxidising, reducing := g.reducing, nh3 := g.nh3},
       [Action.readSensor "gas",
        Action.observe "oxidising_measurements" g.oxidising,
        Action.observe "reducing_measurements" g.reducing,
        Action.observe "nh3_measurements" g.nh3])
  | .error _ =>
      (r, [Action.readSensor "gas",
           Action.logError "Could not get gas readings. Resetting i2c."]
          ++ reset_i2c)

/-- Model of `get_light()`: lux and proximity are read (both inside the same
`try`, before either gauge is set); an IOError from either read logs
and runs `reset_i2c()` with neither gauge updated. -/
def get_light (ltrRead : Except IOErr (ℚ × ℚ)) (r : Registry) :
    Registry × List Action :=
  match ltrRead with
  | .ok lp => ({r with lux := lp.1, proximity := lp.2}, [Action.readSensor "light"])
  | .error _ =>
      (r, [Action.readSensor "light",
           Action.logError "Could not get lux and proximity readings. Resetting i2c."]
          ++ reset_i2c)

/-- Model of `get_particulates()`: a `ReadTimeoutError` is logged as a warning
and swallowed (no reset, nothing set); an `IOError` logs and runs
`reset_i2c()`; on success the three PM gauges get the raw readings,
the AQI gauge gets `to_aqi` of the clamped readings (PM2.5 saturated
at 500.4, PM10 at 604), and the three histograms observe pm1,
pm2.5 - pm1 and pm10 - pm2.5. `to_aqi` is the external EPA index
algorithm, taken as a parameter. -/
def get_particulates (to_aqi : ℚ → ℚ → ℚ) (pmsRead : Except PmsErr PmsData)
    (r : Registry) : Registry × List Action :=
  match pmsRead with
  | .error .readTimeout =>
      (r, [Action.readSensor "pms5003", Action.logWarning "Failed to read PMS5003"])
  | .error .ioError =>
      (r, [Action.readSensor "pms5003",
           Action.logError "Could not get particulate matter readings. Resetting i2c."]
          ++ reset_i2c)
  | .ok d =>
      let pm25_value : ℚ := if d.pm25 > 500.4 then 500.4 else d.pm25
      let pm10_value : ℚ := if d.pm10 > 604 then 604 else d.pm10
      ({r with pm1 := d.pm1, pm25 := d.pm25, pm10 := d.pm10,
               aqi := to_aqi pm25_value pm10_value},
       [Action.readSensor "pms5003",
        Action.indexInput pm25_value pm10_value,
        Action.observe "pm1_measurements" d.pm1,
        Action.observe "pm25_measurements" (d.pm25 - d.pm1),
        Action.observe "pm10_measurements" (d.pm10 - d.pm25)])

/-- A snapshot value: numeric gauge readings, plus the category field
which is a string or Python `None`. -/
inductive SnapValue where
  | num (q : ℚ)
  | cat (c : Option String)
deriving DecidableEq, Repr

/-- Model of `collect_all_data()`: builds the snapshot dict from the current
gauge values, in the fixed insertion order of the source. -/
def collect_all_data (r : Registry) : List (String × SnapValue) :=
  [("BME280_temperature", SnapValue.num r.temperature),
   ("BME280_humidity", SnapValue.num r.humidity),
   ("BME280_pressure", SnapValue.num r.pressure),
   ("MICS6814_oxidising", SnapValue.num r.oxidising),
   ("MICS6814_reducing", SnapValue.num r.reducing),
   ("MICS6814_nh3", SnapValue.num r.nh3),
   ("LTR559_lux", SnapValue.num r.lux),
   ("LTR559_proximity", SnapValue.num r.proximity),
   ("PMS_P0", SnapValue.num r.pm1),
   ("PMS_P1", SnapValue.num r.pm10),
   ("PMS_P2", SnapValue.num r.pm25),
   ("AQI_value", SnapValue.num r.aqi),
   ("AQI_category", SnapValue.cat (get_aqi_category r.aqi))]

/-- Python dict subscript: the value at the key, or a raised KeyError
(modelled as `Except.error key`) when the key is absent. -/
def dictGet (d : List (String × SnapValue)) (k : String) : Except String SnapValue :=
  match d.lookup k with
  | some v => .ok v
  | none => .error k

/-- The sensor read outcomes available to one pass of the main loop. -/
structure CycleReads where
  temp : Except IOErr ℚ
  cpu1 : ℚ
  cpu2 : ℚ
  pressure : Except IOErr ℚ
  humidity : Except IOErr ℚ
  light : Except IOErr (ℚ × ℚ)
  gas : Except IOErr GasData
  pms : Except PmsErr PmsData

/-- One pass of the main `while True` sampling loop:
`get_temperature; get_pressure; get_humidity; get_light;` and, unless
the device is a plain Enviro, `get_gas; get_particulates`. Only
`get_temperature` can propagate an exception out of the pass. -/
def sampling_cycle (to_aqi : ℚ → ℚ → ℚ) (factor : Option ℚ) (enviro : Bool)
    (rd : CycleReads) (r : Registry) : Except IOErr (Registry × List Action) := do
  let (r1, a1) ← get_temperature factor rd.temp rd.cpu1 rd.cpu2 r
  let (r2, a2) := get_pressure rd.pressure r1
  let (r3, a3) := get_humidity rd.humidity r2
  let (r4, a4) := get_light rd.light r3
  if enviro then
    pure (r4, a1 ++ a2 ++ a3 ++ a4)
  else
    let (r5, a5) := get_gas rd.gas r4
    let (r6, a6) := get_particulates to_aqi rd.pms r5
    pure (r6, a1 ++ a2 ++ a3 ++ a4 ++ a5 ++ a6)

/-- One pass of the `post_to_influxdb` loop body after the sleep: a
snapshot is collected, one point per field is built, and the write is
attempted inside `try/except Exception`, whose handler logs a warning.
The pass is total: it returns for every transport outcome. -/
def influx_cycle (r : Registry) (send : Except String Unit) : List Action :=
  let fields := (collect_all_data r).map Prod.fst
  match send with
  | .ok _ => [Action.sendInflux fields]
  | .error e =>
      [Action.sendInflux fields,
       Action.logWarning ("Exception sending to InfluxDB: " ++ e)]

/-- The `post_to_influxdb` loop over a schedule of transport outcomes:
every scheduled cycle runs `influx_cycle` regardless of earlier
failures. -/
def influx_loop (r : Registry) : List (Except String Unit) → List Action
  | [] => []
  | s :: ss => influx_cycle r s ++ influx_loop r ss

/-- Number of InfluxDB write attempts in a trace. -/
def countInfluxAttempts (as : List Action) : Nat :=
  as.countP fun a => match a with | .sendInflux _ => true | _ => false

/-- One pass of the `post_to_luftdaten` loop body after the sleep. The
six subscripts `sensor_data["pm25"]`, `["pm10"]`, `["pm1"]`,
`["temperature"]`, `["pressure"]`, `["humidity"]` happen BEFORE the
`try` block, so a KeyError from any of them propagates. Inside the
`try`, the two posts run in order; a transport exception is caught and
logged as a warning, and a non-OK HTTP status on either logs
"Luftdaten response: Failed". -/
def luftdaten_cycle (r : Registry) (send1 send2 : Except String Bool) :
    Except String (List Action) := do
  let sd := collect_all_data r
  let _ ← dictGet sd "pm25"
  let _ ← dictGet sd "pm10"
  let _ ← dictGet sd "pm1"
  let _ ← dictGet sd "temperature"
  let _ ← dictGet sd "pressure"
  let _ ← dictGet sd "humidity"
  match send1 with
  | .error e =>
      pure [Action.postLuftdaten "1",
            Action.logWarning ("Exception sending to Luftdaten: " ++ e)]
  | .ok ok1 =>
    match send2 with
    | .error e =>
        pure [Action.postLuftdaten "1", Action.postLuftdaten "11",
              Action.logWarning ("Exception sending to Luftdaten: " ++ e)]
    | .ok ok2 =>
        if ok1 && ok2 then
          pure [Action.postLuftdaten "1", Action.postLuftdaten "11"]
        else
          pure [Action.postLuftdaten "1", Action.postLuftdaten "11",
                Action.logWarning "Luftdaten response: Failed"]

/-- The `post_to_luftdaten` loop over a schedule of per-cycle transport
outcomes: an uncaught exception in a cycle terminates the loop. -/
def luftdaten_loop (r : Registry) :
    List (Except String Bool × Except String Bool) → Except String (List Action)
  | [] => .ok []
  | c :: cs => do
      let a ← luftdaten_cycle r c.1 c.2
      let as ← luftdaten_loop r cs
      pure (a ++ as)

/-- Python `int()` applied to a float/rational: truncation toward zero. -/
def pytrunc (q : ℚ) : Int := if 0 ≤ q then ⌊q⌋ else ⌈q⌉

/-- Model of `display_text(message, text_color)`: clear the image to black and
redisplay, then draw the text and display again — one clear-and-draw. -/
def display_text (message : String) (color : Option Color) : List Action :=
  [Action.clearDisplay, Action.drawText message color]

/-- Value of `previous_aqi` before the first iteration of `refresh_display`. -/
def refresh_init : Int := -1

/-- One iteration of the `refresh_display` loop after the sleep: take a
snapshot; if `int(sensor_data["AQI_value"])` differs from
`previous_aqi`, update it and clear-and-draw the new truncated value in
`get_aqi_color(previous_aqi)`; otherwise do nothing. `int()` of the
non-numeric category field would be a TypeError, modelled as an error
(that key is never read here). -/
def refresh_step (prev : Int) (r : Registry) :
    Except String (Int × List Action) := do
  let sd := collect_all_data r
  let v ← dictGet sd "AQI_value"
  match v with
  | .num q =>
      let t := pytrunc q
      if t ≠ prev then
        pure (t, display_text (toString t) (get_aqi_color (t : ℚ)))
      else
        pure (prev, [])
  | .cat _ => .error "AQI_value"

/-- The six AQI bands exactly as the spec lists them, as a direct
case split: (-1,50] Good, (50,100] Moderate, (100,150] Unhealthy for
Sensitive Groups, (150,200] Unhealthy, (200,300] Very Unhealthy,
(300,500] Hazardous; anything else has no category. -/
def specBandCategory (v : ℚ) : Option String :=
  if -1 < v ∧ v ≤ 50 then some "Good"
  else if 50 < v ∧ v ≤ 100 then some "Moderate"
  else if 100 < v ∧ v ≤ 150 then some "Unhealthy for Sensitive Groups"
  else if 150 < v ∧ v ≤ 200 then some "Unhealthy"
  else if 200 < v ∧ v ≤ 300 then some "Very Unhealthy"
  else if 300 < v ∧ v ≤ 500 then some "Hazardous"
  else none

/-- The band colors exactly as the spec lists them: green, yellow,
orange, red, purple, dark red, over the same six half-open bands. -/
def specBandColor (v : ℚ) : Option Color :=
  if -1 < v ∧ v ≤ 50 then some (0, 128, 0)
  else if 50 < v ∧ v ≤ 100 then some (255, 255, 0)
  else if 100 < v ∧ v ≤ 150 then some (255, 165, 0)
  else if 150 < v ∧ v ≤ 200 then some (255, 0, 0)
  else if 200 < v ∧ v ≤ 300 then some (128, 0, 128)
  else if 300 < v ∧ v ≤ 500 then some (128, 0, 0)
  else none

/-- The temperature value one `get_temperature` call computes from the
raw reading and the two CPU readings taken inside that call. -/
def get_temperature_value (factor raw c1 c2 : ℚ) : ℚ :=
  if factor = 0 then raw else compensate factor raw c1 c2

/-- A sequence of `get_temperature` calls as the code runs them: call
`i` (0-based) draws its two CPU readings `cpu (2*i)` and `cpu (2*i+1)`
from the stream and rebuilds its smoothing window locally from them —
nothing persists between calls. -/
def temperature_outputs_from (factor : ℚ) (cpu : Nat → ℚ) :
    Nat → List ℚ → List ℚ
  | _, [] => []
  | i, raw :: raws =>
      get_temperature_value factor raw (cpu (2 * i)) (cpu (2 * i + 1)) ::
        temperature_outputs_from factor cpu (i + 1) raws

/-- The temperature values of a sequence of calls with raw readings
`raws`, drawing CPU readings from the stream `cpu`. -/
def temperature_outputs (factor : ℚ) (cpu : Nat → ℚ) (raws : List ℚ) : List ℚ :=
  temperature_outputs_from factor cpu 0 raws

/-- Modelled from the spec: the claimed PERSISTENT smoothing window — a
rolling buffer of the 5 most-recent CPU-temperature samples, seeded
once with 5 copies of the first reading and then slid by one on each
call (oldest dropped, newest appended) before averaging. Call `i`
(1-based over the stream after the seed reading `cpu 0`) appends
`cpu i`. -/
def spec_temperature_outputs_from (factor : ℚ) (cpu : Nat → ℚ) :
    List ℚ → Nat → List ℚ → List ℚ
  | _, _, [] => []
  | buf, i, raw :: raws =>
      let buf := buf.drop 1 ++ [cpu i]
      let avg := buf.sum / (buf.length : ℚ)
      (raw - ((avg - raw) / factor)) ::
        spec_temperature_outputs_from factor cpu buf (i + 1) raws

/-- Modelled from the spec: temperature values of a call sequence under
the persistent rolling-buffer reading of the claim. -/
def spec_temperature_outputs (factor : ℚ) (cpu : Nat → ℚ) (raws : List ℚ) : List ℚ :=
  spec_temperature_outputs_from factor cpu (List.replicate 5 (cpu 0)) 1 raws

/-- CPU-temperature stream for the counterexample: two readings of 0,
then constant 50. -/
def cpuCE : Nat → ℚ := fun n => if n < 2 then 0 else 50

/-! ## Helper lemmas -/

/-- The source's ordered dict scan computes the spec's band case split,
category side. -/
lemma aqi_category_eq_spec (v : ℚ) : get_aqi_category v = specBandCategory v := by
  simp only [get_aqi_category, AQI_CATEGORIES, inBand, specBandCategory, List.find?]
  by_cases h1 : -1 < v ∧ v ≤ 50 <;> by_cases h2 : 50 < v ∧ v ≤ 100 <;>
    by_cases h3 : 100 < v ∧ v ≤ 150 <;> by_cases h4 : 150 < v ∧ v ≤ 200 <;>
    by_cases h5 : 200 < v ∧ v ≤ 300 <;> by_cases h6 : 300 < v ∧ v ≤ 500 <;>
    simp [h1, h2, h3, h4, h5, h6]

/-- The source's ordered dict scan computes the spec's band case split,
color side. -/
lemma aqi_color_eq_spec (v : ℚ) : get_aqi_color v = specBandColor v := by
  simp only [get_aqi_color, AQI_COLORS, inBand, specBandColor, List.find?]
  by_cases h1 : -1 < v ∧ v ≤ 50 <;> by_cases h2 : 50 < v ∧ v ≤ 100 <;>
    by_cases h3 : 100 < v ∧ v ≤ 150 <;> by_cases h4 : 150 < v ∧ v ≤ 200 <;>
    by_cases h5 : 200 < v ∧ v ≤ 300 <;> by_cases h6 : 300 < v ∧ v ≤ 500 <;>
    simp [h1, h2, h3, h4, h5, h6]

/-- Outside (-1, 500] every band test fails. -/
lemma aqi_lookup_out_of_range (v : ℚ) (h : 500 < v ∨ v ≤ -1) :
    get_aqi_category v = none ∧ get_aqi_color v = none := by
  rw [aqi_category_eq_spec, aqi_color_eq_spec]
  rcases h with h | h
  · have f1 : ¬ v ≤ 50 := by linarith
    have f2 : ¬ v ≤ 100 := by linarith
    have f3 : ¬ v ≤ 150 := by linarith
    have f4 : ¬ v ≤ 200 := by linarith
    have f5 : ¬ v ≤ 300 := by linarith
    have f6 : ¬ v ≤ 500 := by linarith
    simp [specBandCategory, specBandColor, f1, f2, f3, f4, f5, f6]
  · have f1 : ¬ (-1 : ℚ) < v := by linarith
    have f2 : ¬ (50 : ℚ) < v := by linarith
    have f3 : ¬ (100 : ℚ) < v := by linarith
    have f4 : ¬ (150 : ℚ) < v := by linarith
    have f5 : ¬ (200 : ℚ) < v := by linarith
    have f6 : ¬ (300 : ℚ) < v := by linarith
    simp [specBandCategory, specBandColor, f1, f2, f3, f4, f5, f6]

/-- The six band limit pairs, shared by both dicts. -/
def bandLimits : List (ℚ × ℚ) :=
  [(-1, 50), (50, 100), (100, 150), (150, 200), (200, 300), (300, 500)]

/-- Exactly one of the six bands contains any value of (-1, 500]. -/
lemma limits_count_one (v : ℚ) (h1 : -1 < v) (h2 : v ≤ 500) :
    bandLimits.countP (fun p => inBand v p.1 p.2) = 1 := by
  simp only [bandLimits, List.countP_cons, List.countP_nil, inBand]
  rcases le_or_lt v 50 with c | c
  · have n2 : ¬ (50 : ℚ) < v := by linarith
    have n3 : ¬ (100 : ℚ) < v := by linarith
    have n4 : ¬ (150 : ℚ) < v := by linarith
    have n5 : ¬ (200 : ℚ) < v := by linarith
    have n6 : ¬ (300 : ℚ) < v := by linarith
    simp [h1, c, n2, n3, n4, n5, n6]
  rcases le_or_lt v 100 with d | d
  · have n3 : ¬ (100 : ℚ) < v := by linarith
    have n4 : ¬ (150 : ℚ) < v := by linarith
    have n5 : ¬ (200 : ℚ) < v := by linarith
    have n6 : ¬ (300 : ℚ) < v := by linarith
    have m1 : ¬ v ≤ 50 := by linarith
    simp [c, d, m1, n3, n4, n5, n6]
  rcases le_or_lt v 150 with e | e
  · have n4 : ¬ (150 : ℚ) < v := by linarith
    have n5 : ¬ (200 : ℚ) < v := by linarith
    have n6 : ¬ (300 : ℚ) < v := by linarith
    have m1 : ¬ v ≤ 50 := by linarith
    have m2 : ¬ v ≤ 100 := by linarith
    simp [d, e, m1, m2, n4, n5, n6]
  rcases le_or_lt v 200 with f | f
  · have n5 : ¬ (200 : ℚ) < v := by linarith
    have n6 : ¬ (300 : ℚ) < v := by linarith
    have m1 : ¬ v ≤ 50 := by linarith
    have m2 : ¬ v ≤ 100 := by linarith
    have m3 : ¬ v ≤ 150 := by linarith
    simp [e, f, m1, m2, m3, n5, n6]
  rcases le_or_lt v 300 with g | g
  · have n6 : ¬ (300 : ℚ) < v := by linarith
    have m1 : ¬ v ≤ 50 := by linarith
    have m2 : ¬ v ≤ 100 := by linarith
    have m3 : ¬ v ≤ 150 := by linarith
    have m4 : ¬ v ≤ 200 := by linarith
    simp [f, g, m1, m2, m3, m4, n6]
  · have m1 : ¬ v ≤ 50 := by linarith
    have m2 : ¬ v ≤ 100 := by linarith
    have m3 : ¬ v ≤ 150 := by linarith
    have m4 : ¬ v ≤ 200 := by linarith
    have m5 : ¬ v ≤ 300 := by linarith
    simp [g, h2, m1, m2, m3, m4, m5]

/-- The category dict scans exactly the shared band limits. -/
lemma category_limits : AQI_CATEGORIES.map Prod.fst = bandLimits := rfl

/-- The color dict scans exactly the shared band limits. -/
lemma color_limits : AQI_COLORS.map Prod.fst = bandLimits := rfl

/-- Exactly one band of the category dict contains any value of
(-1, 500]. -/
lemma category_band_count_one (v : ℚ) (h1 : -1 < v) (h2 : v ≤ 500) :
    AQI_CATEGORIES.countP (fun e => inBand v e.1.1 e.1.2) = 1 := by
  have := limits_count_one v h1 h2
  rw [← category_limits, List.countP_map] at this
  exact this

/-- Exactly one band of the color dict contains any value of
(-1, 500]. -/
lemma color_band_count_one (v : ℚ) (h1 : -1 < v) (h2 : v ≤ 500) :
    AQI_COLORS.countP (fun e => inBand v e.1.1 e.1.2) = 1 := by
  have := limits_count_one v h1 h2
  rw [← color_limits, List.countP_map] at this
  exact this

/-- Closed form of one display-loop iteration: redraw exactly when the
truncated AQI value changed. -/
lemma refresh_step_eq (prev : Int) (r : Registry) :
    refresh_step prev r =
      if pytrunc r.aqi = prev then .ok (prev, [])
      else .ok (pytrunc r.aqi,
        [Action.clearDisplay,
         Action.drawText (toString (pytrunc r.aqi))
           (get_aqi_color ((pytrunc r.aqi : ℤ) : ℚ))]) := by
  by_cases h : pytrunc r.aqi = prev <;>
    simp only [refresh_step, dictGet, collect_all_data, List.lookup, display_text] <;>
    simp [h, bind, Except.bind, pure, Except.pure]

/-! ## Claim theorems -/

/-- C3: for every AQI value in (-1, 500], `get_aqi_category` and
`get_aqi_color` return the category and color of the band containing
the value, that band is unique among the six ordered half-open
upper-inclusive bands, and in particular 50 yields Good/green while
50.01 yields Moderate/yellow. -/
theorem aqi_band_lookup_correct (v : ℚ) (h1 : -1 < v) (h2 : v ≤ 500) :
    get_aqi_category v = specBandCategory v ∧
    get_aqi_color v = specBandColor v ∧
    AQI_CATEGORIES.countP (fun e => inBand v e.1.1 e.1.2) = 1 ∧
    AQI_COLORS.countP (fun e => inBand v e.1.1 e.1.2) = 1 ∧
    get_aqi_category 50 = some "Good" ∧
    get_aqi_color 50 = some (0, 128, 0) ∧
    get_aqi_category (5001/100) = some "Moderate" ∧
    get_aqi_color (5001/100) = some (255, 255, 0) := by
  refine ⟨aqi_category_eq_spec v, aqi_color_eq_spec v,
    category_band_count_one v h1 h2, color_band_count_one v h1 h2,
    by decide, by decide, ?_, ?_⟩
  · norm_num [get_aqi_category, AQI_CATEGORIES, inBand, List.find?]
  · norm_num [get_aqi_color, AQI_COLORS, inBand, List.find?]

/-- Witness for C3 at value 250 (Very Unhealthy band). -/
theorem aqi_band_lookup_correct_witness :
    (-1 : ℚ) < 250 ∧ (250 : ℚ) ≤ 500 ∧
    get_aqi_category 250 = some "Very Unhealthy" :=
  ⟨by norm_num, by norm_num,
    ((aqi_band_lookup_correct 250 (by norm_num) (by norm_num)).1).trans (by decide)⟩

/-- C7: the snapshot is total: for every registry state the key set is
exactly the fixed 13-channel set, and a snapshot taken before any
sensor read carries the default 0 for every gauge (the AQI category of
the default value 0 being "Good"). -/
theorem collect_all_data_full_snapshot :
    (∀ r : Registry, (collect_all_data r).map Prod.fst =
      ["BME280_temperature", "BME280_humidity", "BME280_pressure",
       "MICS6814_oxidising", "MICS6814_reducing", "MICS6814_nh3",
       "LTR559_lux", "LTR559_proximity", "PMS_P0", "PMS_P1", "PMS_P2",
       "AQI_value", "AQI_category"]) ∧
    collect_all_data Registry.init =
      [("BME280_temperature", SnapValue.num 0),
       ("BME280_humidity", SnapValue.num 0),
       ("BME280_pressure", SnapValue.num 0),
       ("MICS6814_oxidising", SnapValue.num 0),
       ("MICS6814_reducing", SnapValue.num 0),
       ("MICS6814_nh3", SnapValue.num 0),
       ("LTR559_lux", SnapValue.num 0),
       ("LTR559_proximity", SnapValue.num 0),
       ("PMS_P0", SnapValue.num 0),
       ("PMS_P1", SnapValue.num 0),
       ("PMS_P2", SnapValue.num 0),
       ("AQI_value", SnapValue.num 0),
       ("AQI_category", SnapValue.cat (some "Good"))] :=
  ⟨fun _ => rfl, by decide⟩

/-- C8: on the distinguished PMS5003 read timeout, `get_particulates`
only logs a warning: the registry (every PM gauge and the AQI gauge)
is returned unchanged, no histogram observation happens, and the trace
contains no bus-reset action. -/
theorem pms_timeout_swallowed (to_aqi : ℚ → ℚ → ℚ) (r : Registry) :
    get_particulates to_aqi (.error .readTimeout) r =
      (r, [Action.readSensor "pms5003",
           Action.logWarning "Failed to read PMS5003"]) := rfl

/-- C10 counterexample: at AQI value 500.5 (strictly greater than 500)
the color lookup on the raw value yields None, yet a display redraw
does NOT pass None: the drawn value is the truncation 500, which lies
in the Hazardous band, so the redraw color is dark red. -/
theorem display_color_at_five_hundred_and_a_half :
    (500 : ℚ) < 1001/2 ∧
    get_aqi_color (1001/2) = none ∧
    refresh_step refresh_init {Registry.init with aqi := 1001/2} =
      .ok (500, [Action.clearDisplay,
                 Action.drawText "500" (some (128, 0, 0))]) := by
  refine ⟨by norm_num, (aqi_lookup_out_of_range _ (Or.inl (by norm_num))).2, ?_⟩
  have ht : pytrunc (1001/2 : ℚ) = 500 := by norm_num [pytrunc]
  rw [refresh_step_eq,
    show ({Registry.init with aqi := 1001/2} : Registry).aqi = 1001/2 from rfl,
    ht]
  simp only [refresh_init]
  rw [if_neg (by decide)]
  rw [show (((500 : ℤ) : ℚ)) = (500 : ℚ) by norm_num]
  exact congrArg Except.ok (by decide)

/-- C10 amended: for every value strictly above 500 or at most -1 both
lookups fall through all six bands and return None, and a snapshot at
such a value carries None as its AQI category; a display redraw passes
None as the text color when the value is at least 501 or at most -1
(the integer truncation is then itself out of every band) — but not
for values in (500, 501), whose truncation 500 is in the Hazardous
band. -/
theorem aqi_out_of_range_policy (v : ℚ) (h : 500 < v ∨ v ≤ -1) :
    get_aqi_category v = none ∧
    get_aqi_color v = none ∧
    (∀ r : Registry, (collect_all_data {r with aqi := v}).lookup "AQI_category" =
      some (SnapValue.cat none)) ∧
    (501 ≤ v ∨ v ≤ -1 → get_aqi_color ((pytrunc v : ℤ) : ℚ) = none) := by
  obtain ⟨hc, hl⟩ := aqi_lookup_out_of_range v h
  refine ⟨hc, hl, ?_, ?_⟩
  · intro r
    simp [collect_all_data, List.lookup, hc]
  · rintro (h2 | h2)
    · have h0 : (0 : ℚ) ≤ v := by linarith
      rw [pytrunc, if_pos h0]
      have hfl : (501 : ℤ) ≤ ⌊v⌋ := Int.le_floor.mpr (by exact_mod_cast h2)
      have hgt : (500 : ℚ) < ((⌊v⌋ : ℤ) : ℚ) := by
        have h3 : ((501 : ℤ) : ℚ) ≤ ((⌊v⌋ : ℤ) : ℚ) := by exact_mod_cast hfl
        push_cast at h3
        linarith
      exact (aqi_lookup_out_of_range _ (Or.inl hgt)).2
    · have h0 : ¬ (0 : ℚ) ≤ v := by linarith
      rw [pytrunc, if_neg h0]
      have hcl : ⌈v⌉ ≤ (-1 : ℤ) := Int.ceil_le.mpr (by exact_mod_cast h2)
      have hle : ((⌈v⌉ : ℤ) : ℚ) ≤ -1 := by
        have h3 : ((⌈v⌉ : ℤ) : ℚ) ≤ (((-1 : ℤ)) : ℚ) := by exact_mod_cast hcl
        push_cast at h3
        linarith
      exact (aqi_lookup_out_of_range _ (Or.inr hle)).2

/-- Witness for C10 amended at value 501. -/
theorem aqi_out_of_range_policy_witness :
    (500 : ℚ) < 501 ∧ (501 : ℚ) ≤ 501 ∧
    get_aqi_category 501 = none ∧
    get_aqi_color ((pytrunc 501 : ℤ) : ℚ) = none :=
  ⟨by norm_num, by norm_num,
   (aqi_out_of_range_policy 501 (Or.inl (by norm_num))).1,
   (aqi_out_of_range_policy 501 (Or.inl (by norm_num))).2.2.2 (Or.inl (by norm_num))⟩

/-- C9: each display-loop iteration clears and draws exactly when the
integer-truncated AQI value differs from the one recorded at the last
redraw; on a redraw the text is the truncated value and the color is
its band color (`get_aqi_color` agreeing with the spec band table
everywhere); on an unchanged value the iteration performs no clear and
no draw. -/
theorem display_redraw_policy (prev : Int) (r : Registry) :
    (pytrunc r.aqi = prev → refresh_step prev r = .ok (prev, [])) ∧
    (pytrunc r.aqi ≠ prev → refresh_step prev r =
      .ok (pytrunc r.aqi,
        [Action.clearDisplay,
         Action.drawText (toString (pytrunc r.aqi))
           (get_aqi_color ((pytrunc r.aqi : ℤ) : ℚ))])) ∧
    (∀ w : ℚ, get_aqi_color w = specBandColor w) := by
  refine ⟨?_, ?_, aqi_color_eq_spec⟩
  · intro h
    rw [refresh_step_eq, if_pos h]
  · intro h
    rw [refresh_step_eq, if_neg h]

/-- Witness for C9: at AQI 42 with last redraw at -1, the iteration
clears and draws "42" in green. -/
theorem display_redraw_policy_witness :
    pytrunc (({Registry.init with aqi := 42} : Registry).aqi) ≠ refresh_init ∧
    refresh_step refresh_init {Registry.init with aqi := 42} =
      .ok (42, [Action.clearDisplay, Action.drawText "42" (some (0, 128, 0))]) := by
  have ht : pytrunc (({Registry.init with aqi := 42} : Registry).aqi) = 42 := by
    norm_num [pytrunc, Registry.init]
  constructor
  · rw [ht]
    decide
  · have h := (display_redraw_policy refresh_init
      {Registry.init with aqi := 42}).2.1 (by rw [ht]; decide)
    rw [ht] at h
    rw [h, show (((42 : ℤ) : ℚ)) = (42 : ℚ) by norm_num]
    exact congrArg Except.ok (by decide)

/-- C1 counterexample: an I/O failure during the temperature read is
NOT caught: `get_temperature` has no try/except, so the error
propagates without logging or bus reset and the whole sampling-loop
pass dies with it. -/
theorem temperature_ioerror_uncaught :
    get_temperature (some 2) (.error .ioError) 40 40 Registry.init =
      .error .ioError ∧
    sampling_cycle (fun _ _ => 0) (some 2) false
      { temp := .error .ioError, cpu1 := 40, cpu2 := 40,
        pressure := .ok 1000, humidity := .ok 40, light := .ok (100, 0),
        gas := .ok ⟨1, 2, 3⟩, pms := .ok ⟨1, 2, 3⟩ } Registry.init =
      .error .ioError :=
  ⟨rfl, rfl⟩

/-- C1 amended: for the pressure, humidity, gas and light/proximity
routines an I/O failure is caught and logged with exactly one bus
reset (probe, then sleep 2) and one read attempt, the registry
unchanged, and the routine returns normally; the temperature routine,
by contrast, catches nothing — its I/O failure propagates — and a
sampling pass whose temperature read succeeds always completes
regardless of every other read failing. -/
theorem weather_group_fault_recovery (r : Registry) :
    get_pressure (.error .ioError) r =
      (r, [Action.readSensor "pressure",
           Action.logError "Could not get pressure readings. Resetting i2c.",
           Action.probeBus, Action.sleep 2]) ∧
    get_humidity (.error .ioError) r =
      (r, [Action.readSensor "humidity",
           Action.logError "Could not get humidity readings. Resetting i2c.",
           Action.probeBus, Action.sleep 2]) ∧
    get_gas (.error .ioError) r =
      (r, [Action.readSensor "gas",
           Action.logError "Could not get gas readings. Resetting i2c.",
           Action.probeBus, Action.sleep 2]) ∧
    get_light (.error .ioError) r =
      (r, [Action.readSensor "light",
           Action.logError "Could not get lux and proximity readings. Resetting i2c.",
           Action.probeBus, Action.sleep 2]) ∧
    (∀ f c1 c2, get_temperature f (.error .ioError) c1 c2 r = .error .ioError) ∧
    (∀ (to_aqi : ℚ → ℚ → ℚ) (factor : Option ℚ) (e : Bool) (t c1 c2 : ℚ)
       (pr hu : Except IOErr ℚ) (li : Except IOErr (ℚ × ℚ))
       (ga : Except IOErr GasData) (pm : Except PmsErr PmsData),
      ∃ out, sampling_cycle to_aqi factor e
        ⟨.ok t, c1, c2, pr, hu, li, ga, pm⟩ r = .ok out) := by
  refine ⟨rfl, rfl, rfl, rfl, fun f c1 c2 => rfl, ?_⟩
  intro to_aqi factor e t c1 c2 pr hu li ga pm
  rcases factor with _ | f
  · cases e <;> exact ⟨_, rfl⟩
  · by_cases hf : f = 0
    · subst hf
      cases e <;> exact ⟨_, rfl⟩
    · cases e <;> simp [sampling_cycle, get_temperature, hf]

/-- C2 counterexample: the aggregator publisher's cycle fails BEFORE
its try block: the snapshot has no "pm25" key, so the subscript raises
an uncaught KeyError, which is a publish-cycle failure that is neither
caught nor logged and terminates the loop. -/
theorem luftdaten_uncaught_keyerror :
    luftdaten_cycle Registry.init (.ok true) (.ok true) = .error "pm25" := by
  simp only [luftdaten_cycle, dictGet, collect_all_data, Registry.init, List.lookup]
  rfl

/-- C2 amended: the time-series loop catches every transport failure,
logs it as a warning, and attempts a fresh publish on every scheduled
cycle regardless of earlier outcomes; the aggregator loop, however,
dies on its first cycle with an uncaught KeyError ("pm25") raised by
the snapshot field-name mismatch before its try block. -/
theorem publisher_loop_resilience :
    (∀ (r : Registry) (sends : List (Except String Unit)),
      countInfluxAttempts (influx_loop r sends) = sends.length) ∧
    (∀ (r : Registry) (e : String), influx_cycle r (.error e) =
      [Action.sendInflux ((collect_all_data r).map Prod.fst),
       Action.logWarning ("Exception sending to InfluxDB: " ++ e)]) ∧
    (∀ (r : Registry) s1 s2, luftdaten_cycle r s1 s2 = .error "pm25") ∧
    (∀ (r : Registry) c cs, luftdaten_loop r (c :: cs) = .error "pm25") := by
  have hone : ∀ (r : Registry) (s : Except String Unit),
      countInfluxAttempts (influx_cycle r s) = 1 := by
    intro r s
    cases s <;> rfl
  have h3 : ∀ (r : Registry) s1 s2, luftdaten_cycle r s1 s2 = .error "pm25" := by
    intro r s1 s2
    simp only [luftdaten_cycle, dictGet, collect_all_data, List.lookup]
    rfl
  refine ⟨?_, fun r e => rfl, h3, ?_⟩
  · intro r sends
    induction sends with
    | nil => rfl
    | cons s ss ih =>
        have h1 := hone r s
        simp only [influx_loop, countInfluxAttempts, List.countP_append,
          List.length_cons] at h1 ih ⊢
        omega
  · intro r c cs
    simp only [luftdaten_loop]
    rw [h3 r c.1 c.2]
    rfl

/-- C4 counterexample: the claimed persistent rolling window diverges
from the code. With CPU stream 0, 0, 50, 50, ... and two calls at raw
reading 0 with factor 1, the code (which re-seeds its window locally
on every call) outputs [0, -50], while the claimed persistent window
outputs [0, -10]. -/
theorem smoothing_window_not_persistent :
    temperature_outputs 1 cpuCE [0, 0] = [0, -50] ∧
    spec_temperature_outputs 1 cpuCE [0, 0] = [0, -10] ∧
    temperature_outputs 1 cpuCE [0, 0] ≠ spec_temperature_outputs 1 cpuCE [0, 0] := by
  have h1 : temperature_outputs 1 cpuCE [0, 0] = [0, -50] := by
    norm_num [temperature_outputs, temperature_outputs_from,
      get_temperature_value, compensate, cpuCE]
  have h2 : spec_temperature_outputs 1 cpuCE [0, 0] = [0, -10] := by
    norm_num [spec_temperature_outputs, spec_temperature_outputs_from, cpuCE,
      List.replicate]
  refine ⟨h1, h2, ?_⟩
  rw [h1, h2]
  intro hcon
  simp at hcon

/-- C4 amended: per call, with a truthy factor the stored temperature
is raw - (((4*c1 + c2)/5 - raw) / factor), where c1 and c2 are the two
CPU readings taken inside that same call (the window is re-seeded
locally each call, not persistent); with factor unset or zero the raw
value passes through; and the spec's concrete instance (factor 2, raw
25, window average 35) gives 20. -/
theorem temperature_compensation_formula (f raw c1 c2 : ℚ) (r : Registry)
    (hf : f ≠ 0) :
    get_temperature (some f) (.ok raw) c1 c2 r =
      .ok ({r with temperature := raw - (((4*c1 + c2)/5 - raw) / f)},
           [Action.readSensor "temperature"]) ∧
    get_temperature none (.ok raw) c1 c2 r =
      .ok ({r with temperature := raw}, [Action.readSensor "temperature"]) ∧
    get_temperature (some 0) (.ok raw) c1 c2 r =
      .ok ({r with temperature := raw}, [Action.readSensor "temperature"]) ∧
    get_temperature_value 2 25 35 35 = 20 := by
  have hc : compensate f raw c1 c2 = raw - (((4*c1 + c2)/5 - raw) / f) := by
    simp [compensate, List.replicate]
    ring_nf
  refine ⟨?_, rfl, ?_, ?_⟩
  · simp [get_temperature, hf, hc]
  · simp [get_temperature]
  · norm_num [get_temperature_value, compensate]

/-- Witness for C4 amended at factor 2, raw 25, both CPU readings 35
(window average 35): compensated value 25 - ((35-25)/2) = 20. -/
theorem temperature_compensation_formula_witness :
    (2 : ℚ) ≠ 0 ∧
    get_temperature (some 2) (.ok 25) 35 35 Registry.init =
      .ok ({Registry.init with temperature := 25 - (((4*35 + 35)/5 - 25) / 2)},
           [Action.readSensor "temperature"]) :=
  ⟨by norm_num,
   (temperature_compensation_formula 2 25 35 35 Registry.init (by norm_num)).1⟩

/-- Clamp as written in the source equals a minimum. -/
lemma clamp_eq_min (x c : ℚ) : (if x > c then c else x) = min x c := by
  rcases le_or_lt x c with h | h
  · rw [if_neg (not_lt.mpr h), min_eq_left h]
  · rw [if_pos h, min_eq_right h.le]

/-- C5: on a successful particulate read the PM gauges always receive
the raw readings, while the index algorithm receives PM2.5 saturated
at 500.4 and PM10 saturated at 604; in particular raw readings 600 and
700 are presented to the index algorithm as 500.4 and 604. -/
theorem particulate_index_input_clamp (to_aqi : ℚ → ℚ → ℚ) (d : PmsData)
    (r : Registry) :
    (get_particulates to_aqi (.ok d) r).1.pm1 = d.pm1 ∧
    (get_particulates to_aqi (.ok d) r).1.pm25 = d.pm25 ∧
    (get_particulates to_aqi (.ok d) r).1.pm10 = d.pm10 ∧
    (get_particulates to_aqi (.ok d) r).1.aqi =
      to_aqi (min d.pm25 500.4) (min d.pm10 604) ∧
    Action.indexInput (min d.pm25 500.4) (min d.pm10 604) ∈
      (get_particulates to_aqi (.ok d) r).2 ∧
    (d.pm25 = 600 → d.pm10 = 700 →
      Action.indexInput 500.4 604 ∈ (get_particulates to_aqi (.ok d) r).2) := by
  have e25 : (if d.pm25 > 500.4 then (500.4 : ℚ) else d.pm25) = min d.pm25 500.4 :=
    clamp_eq_min _ _
  have e10 : (if d.pm10 > 604 then (604 : ℚ) else d.pm10) = min d.pm10 604 :=
    clamp_eq_min _ _
  refine ⟨rfl, rfl, rfl, ?_, ?_, ?_⟩
  · simp only [get_particulates, e25, e10]
  · simp only [get_particulates, e25, e10, List.mem_cons]
    tauto
  · intro h25 h10
    have m25 : min d.pm25 500.4 = (500.4 : ℚ) := by
      rw [h25]
      norm_num [min_def]
    have m10 : min d.pm10 604 = (604 : ℚ) := by
      rw [h10]
      norm_num [min_def]
    simp only [get_particulates, e25, e10, m25, m10, List.mem_cons]
    tauto

/-- Witness for C5 at raw readings pm1 10, pm2.5 600, pm10 700. -/
theorem particulate_index_input_clamp_witness :
    Action.indexInput 500.4 604 ∈
      (get_particulates (fun _ _ => 0) (.ok ⟨10, 600, 700⟩) Registry.init).2 :=
  (particulate_index_input_clamp (fun _ _ => 0) ⟨10, 600, 700⟩
    Registry.init).2.2.2.2.2 rfl rfl

/-- C6: on every successful particulate read the PM1 histogram
observes the raw pm1, the PM2.5 histogram observes pm2.5 - pm1, and
the PM10 histogram observes pm10 - pm2.5; with readings 10, 15, 22 the
exact trace records observations 10, 5 and 7. -/
theorem pm_histogram_decomposition (to_aqi : ℚ → ℚ → ℚ) (d : PmsData)
    (r : Registry) :
    Action.observe "pm1_measurements" d.pm1 ∈
      (get_particulates to_aqi (.ok d) r).2 ∧
    Action.observe "pm25_measurements" (d.pm25 - d.pm1) ∈
      (get_particulates to_aqi (.ok d) r).2 ∧
    Action.observe "pm10_measurements" (d.pm10 - d.pm25) ∈
      (get_particulates to_aqi (.ok d) r).2 ∧
    (d.pm1 = 10 → d.pm25 = 15 → d.pm10 = 22 →
      (get_particulates to_aqi (.ok d) r).2 =
        [Action.readSensor "pms5003",
         Action.indexInput 15 22,
         Action.observe "pm1_measurements" 10,
         Action.observe "pm25_measurements" 5,
         Action.observe "pm10_measurements" 7]) := by
  refine ⟨?_, ?_, ?_, ?_⟩
  · simp [get_particulates]
  · simp [get_particulates]
  · simp [get_particulates]
  · intro h1 h2 h3
    simp only [get_particulates, h1, h2, h3]
    norm_num

/-- Witness for C6 at readings 10, 15, 22. -/
theorem pm_histogram_decomposition_witness :
    (get_particulates (fun _ _ => 0) (.ok ⟨10, 15, 22⟩) Registry.init).2 =
      [Action.readSensor "pms5003",
       Action.indexInput 15 22,
       Action.observe "pm1_measurements" 10,
       Action.observe "pm25_measurements" 5,
       Action.observe "pm10_measurements" 7] :=
  (pm_histogram_decomposition (fun _ _ => 0) ⟨10, 15, 22⟩
    Registry.init).2.2.2 rfl rfl rfl

end Enviro
